import Mathlib

/-!
Verification development for the wintergreen-ehr-automation client list page
and its shared database schema.

Modelling conventions:
- JavaScript strings are modelled as `List Char` (abbreviated `Str`).
- `String.prototype.toLowerCase` is modelled character-wise by `Char.toLower`
  (ASCII lowering, which covers every character occurring in this code base).
- `String.prototype.includes` is modelled by `strContains` (substring test).
- React component state is modelled as an explicit `ViewState` record, and
  the TanStack mutation lifecycle (mutationFn / onSuccess / onError) as pure
  state transformers parameterised by the mutation's outcome.
- Toast notifications are modelled as `Toast` values returned alongside the
  new state.
-/

/-- JavaScript strings, modelled as lists of characters. -/
abbrev Str := List Char

/-- `strStartsWith s pat`: `pat` is a prefix of `s` (character-wise equality). -/
def strStartsWith : Str → Str → Bool
  | _, [] => true
  | [], _ :: _ => false
  | a :: s, b :: pat => a == b && strStartsWith s pat

/-- Model of `String.prototype.includes`: `pat` occurs as a contiguous
substring of `s`. -/
def strContains : Str → Str → Bool
  | [], pat => pat.isEmpty
  | a :: s, pat => strStartsWith (a :: s) pat || strContains s pat

/-- Model of `String.prototype.toLowerCase`, character-wise ASCII lowering. -/
def lowerStr (s : Str) : Str := s.map Char.toLower

/-- The `HealthcareProvider` record shape used by the client list page
(the `$inferSelect` type as instantiated by `sampleProviders` in the view):
nullable columns are `Option Str`. -/
structure Provider where
  id : Str
  providerName : Str
  providerType : Str
  ehrGroupId : Option Str
  contactEmail : Str
  contactPhone : Str
  address : Str
  status : Str
  notes : Str
  ehrId : Option Str
  ehrTenantId : Option Str
  onboardedDate : Option Str
  lastDataFetch : Option Str
deriving DecidableEq, Repr

/-- The filter predicate applied to each provider by `filteredProviders`:
`searchTerm` is the lowercased query; the match is on lowercased
`providerName`, on lowercased `ehrGroupId` when that field is truthy
(non-null and non-empty, per JavaScript `&&`), on lowercased `contactEmail`,
or on `contactPhone` (not lowercased). -/
def providerMatches (searchQuery : Str) (provider : Provider) : Bool :=
  let searchTerm := lowerStr searchQuery
  strContains (lowerStr provider.providerName) searchTerm ||
  (match provider.ehrGroupId with
   | some g => !g.isEmpty && strContains (lowerStr g) searchTerm
   | none => false) ||
  strContains (lowerStr provider.contactEmail) searchTerm ||
  strContains provider.contactPhone searchTerm

/-- `filteredProviders` from the client list page: `providers.filter(...)`
with the search-query predicate above. -/
def filteredProviders (providers : List Provider) (searchQuery : Str) : List Provider :=
  providers.filter (providerMatches searchQuery)

/-- First sample provider from `sampleProviders` in the client list page. -/
def sampleProvider1 : Provider where
  id := "1".toList
  providerName := "Karleigh Mcdaniel".toList
  providerType := "Clinic".toList
  ehrGroupId := some ("VOLP-2024".toList)
  contactEmail := "jydutax@mailinator.com".toList
  contactPhone := "2323267770".toList
  address := "123 Main St, Suite 100, San Francisco, CA 94105".toList
  status := "Active".toList
  notes := "".toList
  ehrId := none
  ehrTenantId := none
  onboardedDate := none
  lastDataFetch := none

/-- Second sample provider from `sampleProviders`. -/
def sampleProvider2 : Provider where
  id := "2".toList
  providerName := "Northwest Health Partners".toList
  providerType := "Hospital".toList
  ehrGroupId := some ("NWHP-2024".toList)
  contactEmail := "admin@northwesthealth.org".toList
  contactPhone := "5035559876".toList
  address := "450 Cedar Avenue, Portland, OR 97204".toList
  status := "Active".toList
  notes := "Regional hospital network".toList
  ehrId := none
  ehrTenantId := none
  onboardedDate := none
  lastDataFetch := none

/-- Third sample provider from `sampleProviders`. -/
def sampleProvider3 : Provider where
  id := "3".toList
  providerName := "Eastside Medical Group".toList
  providerType := "Private Practice".toList
  ehrGroupId := some ("EMG-742".toList)
  contactEmail := "contact@eastsidemed.com".toList
  contactPhone := "2065551234".toList
  address := "820 Bellevue Way, Bellevue, WA 98004".toList
  status := "Pending".toList
  notes := "Onboarding in progress".toList
  ehrId := none
  ehrTenantId := none
  onboardedDate := none
  lastDataFetch := none

/-- Fourth sample provider from `sampleProviders`. -/
def sampleProvider4 : Provider where
  id := "4".toList
  providerName := "Valley Care Specialists".toList
  providerType := "Specialist Center".toList
  ehrGroupId := some ("VCS-2023-09".toList)
  contactEmail := "info@valleycare.net".toList
  contactPhone := "4805557654".toList
  address := "1275 Desert Palm Drive, Phoenix, AZ 85021".toList
  status := "Active".toList
  notes := "Cardiology focus".toList
  ehrId := none
  ehrTenantId := none
  onboardedDate := none
  lastDataFetch := none

/-- The hardcoded `sampleProviders` array. -/
def sampleProviders : List Provider :=
  [sampleProvider1, sampleProvider2, sampleProvider3, sampleProvider4]

/-- A toast notification, as passed to `toast(...)`: title, description and
whether the `destructive` variant was requested. -/
structure Toast where
  title : Str
  description : Str
  isDestructive : Bool
deriving DecidableEq, Repr

/-- The local state owned by the `ClientListPage` component. -/
structure ViewState where
  searchQuery : Str
  providers : List Provider
  deleteDialogOpen : Bool
  selectedProviderId : Option Str
deriving DecidableEq, Repr

/-- Outcome of an asynchronous mutation: resolution, or rejection with the
error's human-readable message. -/
inductive MutationOutcome where
  | success
  | failure (message : Str)
deriving DecidableEq, Repr

/-- `deleteProviderMutation.mutationFn`: removes from local state every
provider whose id equals the given id
(`setProviders(providers.filter(p => p.id !== id))`). -/
def deleteMutationFn (s : ViewState) (id : Str) : ViewState :=
  { s with providers := s.providers.filter (fun p => p.id != id) }

/-- The success toast shown by `deleteProviderMutation.onSuccess`. -/
def deleteSuccessToast : Toast where
  title := "Success".toList
  description := "Healthcare provider has been deleted successfully.".toList
  isDestructive := false

/-- The error toast shown by `deleteProviderMutation.onError`, carrying the
failure message. -/
def deleteErrorToast (message : Str) : Toast where
  title := "Error".toList
  description := "Failed to delete healthcare provider: ".toList ++ message
  isDestructive := true

/-- `deleteProviderMutation.onSuccess`: success toast, then
`setDeleteDialogOpen(false)`. -/
def deleteOnSuccess (s : ViewState) : ViewState × Toast :=
  ({ s with deleteDialogOpen := false }, deleteSuccessToast)

/-- `deleteProviderMutation.onError`: error toast only; no state change. -/
def deleteOnError (s : ViewState) (message : Str) : ViewState × Toast :=
  (s, deleteErrorToast message)

/-- One full run of `deleteProviderMutation.mutate(id)`. On success the
mutationFn has updated the collection and `onSuccess` runs; on failure the
mutationFn did not complete (a rejected `apiRequest` would have thrown
before any state change) and `onError` runs with the failure's message. -/
def runDeleteMutation (s : ViewState) (id : Str) : MutationOutcome → ViewState × Toast
  | .success => deleteOnSuccess (deleteMutationFn s id)
  | .failure msg => deleteOnError s msg

/-- `handleDelete(id)`: records the pending-delete target and opens the
confirmation dialog. -/
def handleDelete (id : Str) (s : ViewState) : ViewState :=
  { s with selectedProviderId := some id, deleteDialogOpen := true }

/-- `confirmDelete()`: if the pending-delete target is truthy — non-null
AND non-empty, per the JavaScript `if (selectedProviderId)` guard — runs the
delete mutation for it; otherwise does nothing (and shows no toast). -/
def confirmDelete (s : ViewState) (outcome : MutationOutcome) : ViewState × Option Toast :=
  match s.selectedProviderId with
  | some id =>
      if id.isEmpty then (s, none)
      else
        let r := runDeleteMutation s id outcome
        (r.1, some r.2)
  | none => (s, none)

/-- The success toast shown by `refreshProviderMutation.onSuccess`. -/
def refreshSuccessToast : Toast where
  title := "Success".toList
  description := "Client data has been refreshed.".toList
  isDestructive := false

/-- The error toast shown by `refreshProviderMutation.onError`. -/
def refreshErrorToast (message : Str) : Toast where
  title := "Error".toList
  description := "Failed to refresh data: ".toList ++ message
  isDestructive := true

/-- One full run of `refreshProviderMutation.mutate()`: the mutationFn body
is empty, so the state is returned untouched and only a toast is produced. -/
def runRefreshMutation (s : ViewState) : MutationOutcome → ViewState × Toast
  | .success => (s, refreshSuccessToast)
  | .failure msg => (s, refreshErrorToast msg)

/-- `handleRefresh(id)`: calls `refreshProviderMutation.mutate()`, discarding
the provider id it was invoked with. -/
def handleRefresh (id : Str) (s : ViewState) (outcome : MutationOutcome) : ViewState × Toast :=
  runRefreshMutation s outcome

/-!
Shared schema (`shared/schema.ts`): the `healthcareProviders` table and the
zod insert schema generated by
`createInsertSchema(healthcareProviders)` with `id` and `createdAt` omitted.

JSON-ish runtime values are modelled by `JsValue`; an insert payload is an
ordered list of key/value pairs (JavaScript object literal). zod object
schemas parse in their default "strip" mode: each declared key is validated
against its field schema, and unknown keys are ignored (stripped), not
rejected.
-/

/-- A JavaScript runtime value as seen by the zod validators. -/
inductive JsValue where
  | jsStr (s : Str)
  | jsNum (n : Int)
  | jsBool (b : Bool)
  | jsNull
deriving DecidableEq, Repr

/-- An insert payload: a JavaScript object literal, as an ordered
key/value list. -/
abbrev Payload := List (Str × JsValue)

/-- Property lookup on an object literal (first binding wins). -/
def lookupField : Payload → Str → Option JsValue
  | [], _ => none
  | (k, v) :: rest, key => if k == key then some v else lookupField rest key

/-- zod field validator for a drizzle `text(...).notNull()` column:
`z.string()` — the key must be present and hold a string. -/
def requiredStringField : Option JsValue → Bool
  | some (.jsStr _) => true
  | _ => false

/-- zod field validator for a nullable (or defaulted) drizzle `text` column:
`z.string().nullable().optional()` — absent, null, or a string. -/
def nullableStringField : Option JsValue → Bool
  | none => true
  | some .jsNull => true
  | some (.jsStr _) => true
  | _ => false

/-- The keys declared by `insertHealthcareProviderSchema`: the
`healthcareProviders` columns minus the omitted `id` and `createdAt`. -/
def insertHealthcareProviderKeys : List Str :=
  ["name".toList, "groupId".toList, "contactName".toList, "email".toList,
   "phone".toList, "company".toList, "address".toList, "city".toList,
   "state".toList, "zipCode".toList, "country".toList]

/-- Whether `insertHealthcareProviderSchema` accepts a payload:
`name`, `groupId`, `email`, `phone` are `notNull` without default, hence
required strings; `contactName`, `company`, `address`, `city`, `state`,
`zipCode` are nullable, and `country` is nullable with a default, hence all
are optional nullable strings. `id` and `createdAt` are omitted; zod's
default object mode ignores keys outside the declared shape. -/
def insertHealthcareProviderAccepts (payload : Payload) : Bool :=
  requiredStringField (lookupField payload ("name".toList)) &&
  requiredStringField (lookupField payload ("groupId".toList)) &&
  nullableStringField (lookupField payload ("contactName".toList)) &&
  requiredStringField (lookupField payload ("email".toList)) &&
  requiredStringField (lookupField payload ("phone".toList)) &&
  nullableStringField (lookupField payload ("company".toList)) &&
  nullableStringField (lookupField payload ("address".toList)) &&
  nullableStringField (lookupField payload ("city".toList)) &&
  nullableStringField (lookupField payload ("state".toList)) &&
  nullableStringField (lookupField payload ("zipCode".toList)) &&
  nullableStringField (lookupField payload ("country".toList))

/-- A valid persisted row of the `healthcareProviders` table
(`typeof healthcareProviders.$inferSelect`): serial `id`, `notNull` text
columns as `Str`, nullable text columns as `Option Str`, `createdAt`
timestamp (nullable) as an `Option` of epoch milliseconds. -/
structure PersistedProviderRow where
  id : Int
  name : Str
  groupId : Str
  contactName : Option Str
  email : Str
  phone : Str
  company : Option Str
  address : Option Str
  city : Option Str
  state : Option Str
  zipCode : Option Str
  country : Option Str
  createdAt : Option Int
deriving DecidableEq, Repr

/-- A nullable text column value as a JavaScript runtime value. -/
def optStrValue : Option Str → JsValue
  | some s => .jsStr s
  | none => .jsNull

/-- The insert payload obtained from a persisted row by omitting the
server-generated `id` and `createdAt` fields. -/
def rowToInsertPayload (r : PersistedProviderRow) : Payload :=
  [("name".toList, .jsStr r.name),
   ("groupId".toList, .jsStr r.groupId),
   ("contactName".toList, optStrValue r.contactName),
   ("email".toList, .jsStr r.email),
   ("phone".toList, .jsStr r.phone),
   ("company".toList, optStrValue r.company),
   ("address".toList, optStrValue r.address),
   ("city".toList, optStrValue r.city),
   ("state".toList, optStrValue r.state),
   ("zipCode".toList, optStrValue r.zipCode),
   ("country".toList, optStrValue r.country)]

/-- A concrete persisted row used in closed instances. -/
def demoPersistedRow : PersistedProviderRow where
  id := 7
  name := "Northwest Health Partners".toList
  groupId := "NWHP-2024".toList
  contactName := some ("Alex Rivera".toList)
  email := "admin@northwesthealth.org".toList
  phone := "5035559876".toList
  company := none
  address := some ("450 Cedar Avenue".toList)
  city := some ("Portland".toList)
  state := some ("OR".toList)
  zipCode := some ("97204".toList)
  country := some ("USA".toList)
  createdAt := some 1700000000000

/-!
Specification-side predicates and demo states used by the theorems below.
-/

/-- The filter predicate exactly as the specification words it: the search
string matches case-insensitively against `providerName`, against
`ehrGroupId` when non-null, against `contactEmail`, and case-SENSITIVELY
(the search string exactly as typed) against `contactPhone`. -/
def specPhoneCaseSensitiveMatch (searchQuery : Str) (p : Provider) : Bool :=
  strContains (lowerStr p.providerName) (lowerStr searchQuery) ||
  (match p.ehrGroupId with
   | some g => strContains (lowerStr g) (lowerStr searchQuery)
   | none => false) ||
  strContains (lowerStr p.contactEmail) (lowerStr searchQuery) ||
  strContains p.contactPhone searchQuery

/-- The amended filter predicate: as the specification words it, except that
`contactPhone` is matched against the LOWERCASED search string (the code
lowercases the query once and reuses it for the phone test), and the
truthiness test on `ehrGroupId` is kept as the plain non-null test (the two
differ only for an empty group id and an empty query, where the name
disjunct already matches). -/
def specAmendedMatch (searchQuery : Str) (p : Provider) : Bool :=
  strContains (lowerStr p.providerName) (lowerStr searchQuery) ||
  (match p.ehrGroupId with
   | some g => strContains (lowerStr g) (lowerStr searchQuery)
   | none => false) ||
  strContains (lowerStr p.contactEmail) (lowerStr searchQuery) ||
  strContains p.contactPhone (lowerStr searchQuery)

/-- A provider whose only hit for the query "A" would be the phone field:
every other searched field is the letter z, and the phone is the single
uppercase letter A. -/
def phoneCaseProvider : Provider where
  id := "9".toList
  providerName := "z".toList
  providerType := "z".toList
  ehrGroupId := none
  contactEmail := "z".toList
  contactPhone := "A".toList
  address := "z".toList
  status := "z".toList
  notes := "".toList
  ehrId := none
  ehrTenantId := none
  onboardedDate := none
  lastDataFetch := none

/-- A concrete view state over three sample providers, with the dialog open
and provider 2 pending deletion. -/
def demoState : ViewState where
  searchQuery := []
  providers := [sampleProvider1, sampleProvider2, sampleProvider3]
  deleteDialogOpen := true
  selectedProviderId := some ("2".toList)

/-- The empty pattern is a substring of every string. -/
theorem strContains_nil (s : Str) : strContains s [] = true := by
  cases s with
  | nil => simp [strContains]
  | cons a s => simp [strContains, strStartsWith]

/-- The code's filter predicate agrees with the amended specification
predicate on every provider and query. -/
theorem providerMatches_eq_specAmendedMatch (q : Str) (p : Provider) :
    providerMatches q p = specAmendedMatch q p := by
  cases q with
  | nil =>
      simp only [providerMatches, specAmendedMatch, lowerStr, List.map_nil,
        strContains_nil, Bool.true_or]
  | cons c cs =>
      simp only [providerMatches, specAmendedMatch, lowerStr, List.map_cons]
      cases p.ehrGroupId with
      | none => rfl
      | some g =>
          cases g with
          | nil => simp [strContains]
          | cons a as => simp

/-!
Claim theorems.
-/

/-- C1 counterexample: with the single provider whose phone is the uppercase
letter A and the query "A", the code's filter returns nothing (it lowercases
the query before the phone test), while the claim's case-sensitive phone
predicate selects the provider. -/
theorem filteredProviders_phone_case_counterexample :
    filteredProviders [phoneCaseProvider] ("A".toList) ≠
      List.filter (specPhoneCaseSensitiveMatch ("A".toList)) [phoneCaseProvider] := by
  decide

/-- C1 (amended): for every provider collection and search string, the
filter operation returns exactly the order-preserving subsequence of
providers matching the spec predicate, where name, group id (when non-null)
and email are compared case-insensitively and the LOWERCASED search string
must be an exact substring of `contactPhone`; the empty search string
matches every provider. -/
theorem filteredProviders_spec (providers : List Provider) (searchQuery : Str) :
    (filteredProviders providers searchQuery).Sublist providers ∧
    filteredProviders providers searchQuery =
      providers.filter (specAmendedMatch searchQuery) := by
  refine ⟨List.filter_sublist providers, ?_⟩
  unfold filteredProviders
  congr 1
  funext p
  exact providerMatches_eq_specAmendedMatch searchQuery p

/-- C2: if the collection is [A, B, C] (A and C carrying ids different from
B's) and the delete mutation for B's id succeeds, the resulting collection
is [A, C] — only exact id matches are removed — and the confirmation dialog
closes. -/
theorem delete_success_removes_matching (s : ViewState) (A B C : Provider)
    (hps : s.providers = [A, B, C]) (hA : A.id ≠ B.id) (hC : C.id ≠ B.id) :
    (runDeleteMutation s B.id .success).1.providers = [A, C] ∧
    (runDeleteMutation s B.id .success).1.deleteDialogOpen = false := by
  unfold runDeleteMutation deleteOnSuccess deleteMutationFn
  refine ⟨?_, rfl⟩
  simp [hps, List.filter_cons, bne_iff_ne, hA, hC]

/-- C2 witness: deleting sample provider 2 from the three-provider demo
state leaves providers 1 and 3 and closes the dialog. -/
theorem delete_success_removes_matching_witness :
    (runDeleteMutation demoState sampleProvider2.id .success).1.providers =
      [sampleProvider1, sampleProvider3] ∧
    (runDeleteMutation demoState sampleProvider2.id .success).1.deleteDialogOpen = false :=
  delete_success_removes_matching demoState sampleProvider1 sampleProvider2 sampleProvider3
    (by decide) (by decide) (by decide)

/-- C3: when the delete mutation fails, the whole view state — collection
included — is unchanged (so a dialog that was open stays open), and the
surfaced toast is the destructive error toast whose description carries the
failure's human-readable message. -/
theorem delete_failure_frame (s : ViewState) (id message : Str) :
    (runDeleteMutation s id (.failure message)).1 = s ∧
    (runDeleteMutation s id (.failure message)).1.providers = s.providers ∧
    (runDeleteMutation s id (.failure message)).1.deleteDialogOpen = s.deleteDialogOpen ∧
    (runDeleteMutation s id (.failure message)).2 = deleteErrorToast message ∧
    (deleteErrorToast message).description =
      "Failed to delete healthcare provider: ".toList ++ message ∧
    (deleteErrorToast message).isDestructive = true :=
  ⟨rfl, rfl, rfl, rfl, rfl, rfl⟩

/-- C4: running the delete mutation with an id that matches no provider in
the collection leaves the collection exactly unchanged (the embedding is a
total function, so no exception is possible). -/
theorem delete_missing_id_noop (s : ViewState) (id : Str)
    (h : ∀ p ∈ s.providers, p.id ≠ id) :
    (runDeleteMutation s id .success).1.providers = s.providers := by
  unfold runDeleteMutation deleteOnSuccess deleteMutationFn
  show s.providers.filter (fun p => p.id != id) = s.providers
  rw [List.filter_eq_self]
  intro p hp
  simpa [bne_iff_ne] using h p hp

/-- C4 witness: deleting the absent id "99" from the demo state leaves its
collection unchanged. -/
theorem delete_missing_id_noop_witness :
    (runDeleteMutation demoState ("99".toList) .success).1.providers =
      demoState.providers :=
  delete_missing_id_noop demoState ("99".toList) (by decide)

/-- C5: the refresh mutation, on success and on failure alike, returns the
view state untouched — every provider field and the row order are identical
— and surfaces a toast (the refresh success toast, or the refresh error
toast carrying the failure message). -/
theorem refresh_preserves_collection (s : ViewState) (outcome : MutationOutcome) :
    (runRefreshMutation s outcome).1 = s ∧
    (runRefreshMutation s outcome).1.providers = s.providers ∧
    ((runRefreshMutation s outcome).2 = refreshSuccessToast ∨
      ∃ message, (runRefreshMutation s outcome).2 = refreshErrorToast message) := by
  cases outcome with
  | success => exact ⟨rfl, rfl, Or.inl rfl⟩
  | failure message => exact ⟨rfl, rfl, Or.inr ⟨message, rfl⟩⟩

/-- C9: the per-row refresh handler discards its provider-id argument, so
for any two ids, the same starting state and the same outcome, it produces
the identical resulting state and the identical notification. -/
theorem handleRefresh_id_independent (id₁ id₂ : Str) (s : ViewState)
    (outcome : MutationOutcome) :
    handleRefresh id₁ s outcome = handleRefresh id₂ s outcome := rfl

/-- C6: filtering the four hardcoded sample providers with the query "2024"
returns exactly the first two sample providers — the ones whose ehrGroupId
contains "2024" and whose ids are "1" and "2" — and neither of the other two
samples matches through any filtered field. -/
theorem sample_filter_2024 :
    filteredProviders sampleProviders ("2024".toList) =
      [sampleProvider1, sampleProvider2] ∧
    sampleProvider1.id = "1".toList ∧ sampleProvider2.id = "2".toList ∧
    strContains (lowerStr ((sampleProvider1.ehrGroupId).getD []))
      (lowerStr ("2024".toList)) = true ∧
    strContains (lowerStr ((sampleProvider2.ehrGroupId).getD []))
      (lowerStr ("2024".toList)) = true := by
  decide

/-- C10: a successful delete closes the dialog but does not clear the
pending-delete target: `selectedProviderId` still holds the deleted id, and
— the id being non-empty, i.e. truthy, as any id that reached the mutation
through `confirmDelete`'s own guard necessarily is — a subsequent
`confirmDelete` (with no intervening `handleDelete`) re-runs the delete
mutation for that same id instead of being a no-op. -/
theorem delete_success_keeps_selected_id (s : ViewState) (id : Str)
    (h : s.selectedProviderId = some id) (hid : id ≠ []) :
    (runDeleteMutation s id .success).1.selectedProviderId = some id ∧
    (runDeleteMutation s id .success).1.deleteDialogOpen = false ∧
    ∀ outcome,
      confirmDelete (runDeleteMutation s id .success).1 outcome =
        ((runDeleteMutation (runDeleteMutation s id .success).1 id outcome).1,
          some (runDeleteMutation (runDeleteMutation s id .success).1 id outcome).2) := by
  have h1 : (runDeleteMutation s id .success).1.selectedProviderId = some id := by
    unfold runDeleteMutation deleteOnSuccess deleteMutationFn
    simpa using h
  refine ⟨h1, rfl, ?_⟩
  intro outcome
  simp only [confirmDelete, h1]
  rw [if_neg]
  simp [List.isEmpty_iff, hid]

/-- C10 witness: after successfully deleting id "2" from the demo state, the
pending target is still id "2" and confirming again re-runs the (successful)
delete mutation for id "2". -/
theorem delete_success_keeps_selected_id_witness :
    (runDeleteMutation demoState ("2".toList) .success).1.selectedProviderId =
      some ("2".toList) ∧
    (runDeleteMutation demoState ("2".toList) .success).1.deleteDialogOpen = false ∧
    confirmDelete (runDeleteMutation demoState ("2".toList) .success).1 .success =
      ((runDeleteMutation (runDeleteMutation demoState ("2".toList) .success).1
          ("2".toList) .success).1,
        some (runDeleteMutation (runDeleteMutation demoState ("2".toList) .success).1
          ("2".toList) .success).2) :=
  ⟨(delete_success_keeps_selected_id demoState ("2".toList) (by decide) (by decide)).1,
   (delete_success_keeps_selected_id demoState ("2".toList) (by decide) (by decide)).2.1,
   (delete_success_keeps_selected_id demoState ("2".toList) (by decide)
      (by decide)).2.2 .success⟩

/-- A field built from a nullable column value always satisfies the
nullable-string validator. -/
theorem nullableStringField_optStrValue (o : Option Str) :
    nullableStringField (some (optStrValue o)) = true := by
  cases o <;> rfl

/-- C7: round-trip — for every valid persisted `healthcareProviders` row,
the insert payload obtained by omitting `id` and `createdAt` passes
`insertHealthcareProviderSchema` validation. -/
theorem insert_roundtrip_accepts (r : PersistedProviderRow) :
    insertHealthcareProviderAccepts (rowToInsertPayload r) = true := by
  obtain ⟨i, nm, gid, cn, em, ph, co, ad, ci, st, zi, cy, ca⟩ := r
  cases cn <;> cases co <;> cases ad <;> cases ci <;> cases st <;> cases zi <;>
    cases cy <;> rfl

/-- C8 counterexample: a payload that contains the server-generated fields
`id` and `createdAt` on top of a valid insert shape is ACCEPTED by
`insertHealthcareProviderSchema` (zod's default object mode strips unknown
keys), contradicting the claim that any such payload is rejected. -/
theorem insert_schema_accepts_server_fields :
    insertHealthcareProviderAccepts
      (rowToInsertPayload demoPersistedRow ++
        [("id".toList, JsValue.jsNum 7),
         ("createdAt".toList, JsValue.jsNum 1700000000000)]) = true := by
  decide

/-- Appending a binding for a key different from the looked-up key does not
change the lookup. -/
theorem lookupField_append_ne (payload : Payload) (k : Str) (v : JsValue)
    (key : Str) (hk : k ≠ key) :
    lookupField (payload ++ [(k, v)]) key = lookupField payload key := by
  induction payload with
  | nil => simp [lookupField, hk]
  | cons kv rest ih =>
      cases kv
      simp only [List.cons_append, lookupField, List.append_eq]
      rw [ih]

/-- C8 (amended): insert-payload validation does not reject extra fields;
fields with keys outside the declared insert shape — in particular the
server-generated primary key and timestamps — are stripped by zod's default
object mode, so adding such a field leaves the validation outcome of any
payload unchanged. -/
theorem insert_schema_ignores_unknown_fields (payload : Payload) (k : Str)
    (v : JsValue) (hk : k ∉ insertHealthcareProviderKeys) :
    insertHealthcareProviderAccepts (payload ++ [(k, v)]) =
      insertHealthcareProviderAccepts payload := by
  simp only [insertHealthcareProviderKeys, List.mem_cons, List.not_mem_nil,
    or_false, not_or] at hk
  obtain ⟨h1, h2, h3, h4, h5, h6, h7, h8, h9, h10, h11⟩ := hk
  simp only [insertHealthcareProviderAccepts]
  rw [lookupField_append_ne _ _ _ _ h1, lookupField_append_ne _ _ _ _ h2,
    lookupField_append_ne _ _ _ _ h3, lookupField_append_ne _ _ _ _ h4,
    lookupField_append_ne _ _ _ _ h5, lookupField_append_ne _ _ _ _ h6,
    lookupField_append_ne _ _ _ _ h7, lookupField_append_ne _ _ _ _ h8,
    lookupField_append_ne _ _ _ _ h9, lookupField_append_ne _ _ _ _ h10,
    lookupField_append_ne _ _ _ _ h11]

/-- C8 witness: adding an `id` field to the empty payload leaves the
validation outcome unchanged. -/
theorem insert_schema_ignores_unknown_fields_witness :
    insertHealthcareProviderAccepts ([] ++ [("id".toList, JsValue.jsNum 1)]) =
      insertHealthcareProviderAccepts [] :=
  insert_schema_ignores_unknown_fields [] ("id".toList) (JsValue.jsNum 1) (by decide)
